import Mathlib

/-!
Shallow embedding of the auth-service core (si32/auth-service-for-cinema):
the session and authorization state machine of `src/api/v1/users.py` and
`src/api/v1/permissions.py`, with the JWT configuration of
`src/core/config.py`.

The services modules (`services/user_services.py`, `services/authorization.py`,
`services/permissions.py` and the token handler) are not present in the
source tree; their operations are modelled from the spec's collaborator
contracts (spec §3, §4.2-4.5, §6) and carry doc comments saying so.  The
endpoint handlers themselves are translated from the source.
-/

namespace AuthService

/-- Access vs refresh token, as distinguished by the JWT library
(`jwt_required` accepts only access tokens, `jwt_refresh_token_required`
only refresh tokens). -/
inductive TokenType
  | access
  | refresh
deriving DecidableEq, Repr

/-- A decoded JWT, as seen via `Authorize.get_raw_jwt()`: a unique token
identifier (`jti`), the subject (username), the custom `user_id` claim
(`users.py` line 191), the token type, and the expiry instant. -/
structure Token where
  jti : Nat
  subject : String
  user_id : String
  typ : TokenType
  exp : Nat
deriving DecidableEq, Repr

/-- A stored user record; password hashing is out of scope (spec §1), so the
verifier compares the stored secret directly. -/
structure User where
  id : String
  username : String
  password : String
deriving DecidableEq, Repr

/-- A refresh session row: key = (user id, device identity), value = the
stored (decrypted) refresh-token identifier (spec §3 RefreshSession). -/
structure RefreshSession where
  user_id : String
  device : String
  jti : Nat
deriving DecidableEq, Repr

/-- Login/logout history event kinds (spec §3 HistoryEvent). -/
inductive EventKind
  | loginEvent
  | logoutEvent
deriving DecidableEq, Repr

/-- One append-only history row. -/
structure HistoryEvent where
  user_id : String
  device : String
  kind : EventKind
deriving DecidableEq, Repr

/-- A denylist entry: revoked access-token identifier with its TTL
(spec §3 DenylistEntry). -/
structure DenyEntry where
  jti : Nat
  ttl : Nat
deriving DecidableEq, Repr

/-- The mutable state owned by the session manager: refresh sessions,
the access-token denylist, the history log, and the issuer's counter of
fresh token identifiers. -/
structure AuthState where
  sessions : List RefreshSession
  denylist : List DenyEntry
  history : List HistoryEvent
  nextJti : Nat
deriving DecidableEq, Repr

/-- `src/core/config.py`, class `JWTSettings`.  Lifetimes are held in
seconds: `timedelta(minutes=10)` and `timedelta(days=10)`. -/
structure JWTSettings where
  authjwt_secret_key : String := "secret"
  authjwt_access_token_expires : Nat := 10 * 60
  authjwt_refresh_token_expires : Nat := 10 * 24 * 60 * 60
deriving DecidableEq, Repr

/-- The default settings object constructed by `JWTSettings()` in
`users.py` (`get_config`). -/
def defaultJWTSettings : JWTSettings := {}

/-- `src/api/v1/users.py` line 29. -/
def MAX_SESSION_NUMBER : Nat := 5

/-- Error taxonomy of the handlers (spec §7), each mapped to the HTTP
status the source raises. -/
inductive ApiErr
  | missingDevice
  | invalidCredentials
  | duplicateSession
  | authenticationFailure
  | alreadyRevoked
  | sessionNotFound
  | forbidden
  | conflictError
  | notFound
deriving DecidableEq, Repr

/-- HTTP status raised by the source for each error: 400 for missing
device (`users.py` 171, 228, 267) and duplicate session (188), 401 for bad
credentials (180), token failures and a missing session on refresh (284),
403/409/404 in `permissions.py`. -/
def ApiErr.status : ApiErr → Nat
  | .missingDevice => 400
  | .invalidCredentials => 401
  | .duplicateSession => 400
  | .authenticationFailure => 401
  | .alreadyRevoked => 401
  | .sessionNotFound => 401
  | .forbidden => 403
  | .conflictError => 409
  | .notFound => 404

/-- The error of a result, if any (used to state concrete outcomes). -/
def errOf {α : Type} : Except ApiErr α → Option ApiErr
  | .error e => some e
  | .ok _ => none

/-- Modelled from the spec: `CredentialVerifier` lookup (§6);
`services/user_services.py` is absent from the source tree. -/
def get_user_by_username (users : List User) (username : String) : Option User :=
  users.find? (fun u => u.username == username)

/-- Modelled from the spec: password check of the credential verifier
(§2); hashing details are out of scope. -/
def check_password (u : User) (password : String) : Bool :=
  u.password == password

/-- Whether a session row has the store key (user id, device)
(spec §3: RefreshSession key = (user id, device identity string)). -/
def sessionKeyMatches (uid dev : String) (r : RefreshSession) : Bool :=
  r.user_id == uid && r.device == dev

/-- Modelled from the spec: `SessionStore` membership for a key (§6);
used by `login` as `check_if_user_login` and by `refresh` as
`check_if_session_exist` — both receive only (user id, device). -/
def check_if_user_login (st : AuthState) (uid dev : String) : Bool :=
  st.sessions.any (sessionKeyMatches uid dev)

/-- Modelled from the spec: same store membership check, the name used by
`refresh` (`users.py` line 279). -/
def check_if_session_exist (st : AuthState) (uid dev : String) : Bool :=
  check_if_user_login st uid dev

/-- Modelled from the spec: `SessionStore.count` for a user (§6). -/
def count_refresh_sessions (st : AuthState) (uid : String) : Nat :=
  (st.sessions.filter (fun r => r.user_id == uid)).length

/-- Modelled from the spec: `SessionStore.delete_all` for a user (§6). -/
def del_all_refresh_sessions_in_db (st : AuthState) (uid : String) : AuthState :=
  { st with sessions := st.sessions.filter (fun r => !(r.user_id == uid)) }

/-- Modelled from the spec: `SessionStore.delete` of one key (§6). -/
def del_refresh_session_in_db (st : AuthState) (uid dev : String) : AuthState :=
  { st with sessions := st.sessions.filter (fun r => !(sessionKeyMatches uid dev r)) }

/-- Modelled from the spec: `SessionStore.put` keyed by (user id, device)
(§6) — a key-value write replaces any row under the same key. -/
def put_refresh_session_in_db (st : AuthState) (uid dev : String) (jti : Nat) :
    AuthState :=
  { st with sessions :=
      ⟨uid, dev, jti⟩ :: st.sessions.filter (fun r => !(sessionKeyMatches uid dev r)) }

/-- Modelled from the spec: `HistoryStore.append` of a login event (§6). -/
def put_login_history_in_db (st : AuthState) (uid dev : String) : AuthState :=
  { st with history := ⟨uid, dev, .loginEvent⟩ :: st.history }

/-- Modelled from the spec: `HistoryStore.append` of a logout event (§6). -/
def put_logout_history_in_db (st : AuthState) (uid dev : String) : AuthState :=
  { st with history := ⟨uid, dev, .logoutEvent⟩ :: st.history }

/-- Modelled from the spec: `Denylist.contains` (§4.3), negated as the
token handler's `check_if_token_is_valid` used by `logout`
(`users.py` line 235) — true when the token is NOT denylisted. -/
def check_if_token_is_valid (st : AuthState) (t : Token) : Bool :=
  !(st.denylist.any (fun e => e.jti == t.jti))

/-- Modelled from the spec: `Denylist.put(token_id, ttl)` with TTL = the
token's remaining lifetime (§3, §4.1 step 3), the token handler's
`put_token_in_denylist` used by `logout` (`users.py` line 238). -/
def put_token_in_denylist (st : AuthState) (t : Token) (now : Nat) : AuthState :=
  { st with denylist := ⟨t.jti, t.exp - now⟩ :: st.denylist }

/-- Modelled from the spec: the Token Issuer (§4.2) as wrapped by the JWT
library's `create_access_token` — a fresh identifier, the given subject
and `user_id` claim, expiry `now` plus the configured access lifetime. -/
def create_access_token (cfg : JWTSettings) (now : Nat) (subject user_id : String)
    (st : AuthState) : Token × AuthState :=
  (⟨st.nextJti, subject, user_id, .access, now + cfg.authjwt_access_token_expires⟩,
   { st with nextJti := st.nextJti + 1 })

/-- Modelled from the spec: the Token Issuer (§4.2) as wrapped by the JWT
library's `create_refresh_token`. -/
def create_refresh_token (cfg : JWTSettings) (now : Nat) (subject user_id : String)
    (st : AuthState) : Token × AuthState :=
  (⟨st.nextJti, subject, user_id, .refresh, now + cfg.authjwt_refresh_token_expires⟩,
   { st with nextJti := st.nextJti + 1 })

/-- Modelled from the spec: the JWT library's `jwt_required` under the
configuration of `src/core/config.py` — it demands a present, structurally
valid, unexpired ACCESS token; `JWTSettings` does not enable the library's
denylist integration, so no denylist lookup happens here. -/
def jwt_required (now : Nat) (tok : Option Token) : Except ApiErr Token :=
  match tok with
  | none => .error .authenticationFailure
  | some t =>
      if t.typ == .access && decide (now < t.exp) then .ok t
      else .error .authenticationFailure

/-- Modelled from the spec: the JWT library's `jwt_refresh_token_required`
— a present, structurally valid, unexpired REFRESH token. -/
def jwt_refresh_token_required (now : Nat) (tok : Option Token) : Except ApiErr Token :=
  match tok with
  | none => .error .authenticationFailure
  | some t =>
      if t.typ == .refresh && decide (now < t.exp) then .ok t
      else .error .authenticationFailure

/-- The access/refresh pair returned by `login` and `refresh`. -/
structure TokenPair where
  access_token : Token
  refresh_token : Token
deriving DecidableEq, Repr

/-- `src/api/v1/users.py` lines 163-211 (`login`): reject a missing
device identity (400), reject unknown username or wrong password (401),
reject an already-active session on the same device (400); then mint the
access/refresh pair with claims subject = username and `user_id`, purge
ALL of the user's sessions when the pre-insertion count strictly exceeds
`MAX_SESSION_NUMBER`, store the new session under (user id, device), and
append a login history event. -/
def login (cfg : JWTSettings) (users : List User) (now : Nat)
    (username password : String) (user_agent : Option String)
    (st : AuthState) : Except ApiErr TokenPair × AuthState :=
  match user_agent with
  | none => (.error .missingDevice, st)
  | some ua =>
      match get_user_by_username users username with
      | none => (.error .invalidCredentials, st)
      | some user =>
          if !(check_password user password) then (.error .invalidCredentials, st)
          else if check_if_user_login st user.id ua then (.error .duplicateSession, st)
          else
            let r1 := create_access_token cfg now user.username user.id st
            let r2 := create_refresh_token cfg now user.username user.id r1.2
            let session_number := count_refresh_sessions r2.2 user.id
            let st3 :=
              if MAX_SESSION_NUMBER < session_number then
                del_all_refresh_sessions_in_db r2.2 user.id
              else r2.2
            let st4 := put_refresh_session_in_db st3 user.id ua r2.1.jti
            let st5 := put_login_history_in_db st4 user.id ua
            (.ok ⟨r1.1, r2.1⟩, st5)

/-- `src/api/v1/users.py` lines 220-250 (`logout`): reject a missing
device identity (400); require a valid access token; reject a token that
is already denylisted; then denylist the token with its remaining
lifetime, append a logout history event, and delete the session under
(user id from the token, device). -/
def logout (now : Nat) (tok : Option Token) (user_agent : Option String)
    (st : AuthState) : Except ApiErr Unit × AuthState :=
  match user_agent with
  | none => (.error .missingDevice, st)
  | some ua =>
      match jwt_required now tok with
      | .error e => (.error e, st)
      | .ok t =>
          if !(check_if_token_is_valid st t) then (.error .alreadyRevoked, st)
          else
            let st1 := put_token_in_denylist st t now
            let st2 := put_logout_history_in_db st1 t.user_id ua
            let st3 := del_refresh_session_in_db st2 t.user_id ua
            (.ok (), st3)

/-- `src/api/v1/users.py` lines 259-303 (`refresh`): reject a missing
device identity (400); require a valid refresh token; look up the session
under (user id from the token claims, device) — absent means 401; else
delete that session, mint a fresh pair for the token's subject and
user id, and store the new session under the same key. -/
def refresh (cfg : JWTSettings) (now : Nat) (tok : Option Token)
    (user_agent : Option String) (st : AuthState) :
    Except ApiErr TokenPair × AuthState :=
  match user_agent with
  | none => (.error .missingDevice, st)
  | some ua =>
      match jwt_refresh_token_required now tok with
      | .error e => (.error e, st)
      | .ok t =>
          if check_if_session_exist st t.user_id ua then
            let st1 := del_refresh_session_in_db st t.user_id ua
            let r1 := create_access_token cfg now t.subject t.user_id st1
            let r2 := create_refresh_token cfg now t.subject t.user_id r1.2
            let st4 := put_refresh_session_in_db r2.2 t.user_id ua r2.1.jti
            (.ok ⟨r1.1, r2.1⟩, st4)
          else (.error .sessionNotFound, st)

/-- Modelled from the spec: the user service's `update_password`
(`services/user_services.py` is absent) — the change-password flow
mutates the stored password of the named user (spec §3 User), failing on
bad input. -/
def update_password (users : List User) (username old new_ : String) :
    Option (List User) :=
  match get_user_by_username users username with
  | none => none
  | some u =>
      if check_password u old then
        some (users.map (fun v =>
          if v.username == username then { v with password := new_ } else v))
      else none

/-- `src/api/v1/users.py` lines 138-152 (`change_password`): update the
password; on success, look the user up again and delete ALL of that
user's refresh sessions; on failure, 400.  The denylist is never
touched. -/
def change_password (users : List User) (username old new_ : String)
    (st : AuthState) : Except ApiErr (List User) × AuthState :=
  match update_password users username old new_ with
  | none => (.error .invalidCredentials, st)
  | some users2 =>
      match get_user_by_username users2 username with
      | none => (.error .invalidCredentials, st)
      | some user => (.ok users2, del_all_refresh_sessions_in_db st user.id)

/-- A paginated history page as assembled by `get_history`
(`users.py` lines 321-325). -/
structure HistoryPage where
  previous : Option Nat
  next : Option Nat
  items : List HistoryEvent
deriving DecidableEq, Repr

/-- Modelled from the spec: `HistoryStore.page` (§4.5, §6) — the user's
history rows, paginated by size and 1-based page number. -/
def get_login_history (st : AuthState) (uid : String) (page_size page_number : Nat) :
    List HistoryEvent :=
  (((st.history.filter (fun e => e.user_id == uid)).drop
      ((page_number - 1) * page_size)).take page_size)

/-- Modelled from the spec: `HistoryStore.count` (§4.5). -/
def get_login_history_count (st : AuthState) (uid : String) : Nat :=
  (st.history.filter (fun e => e.user_id == uid)).length

/-- Modelled from the spec: the trivial previous/next page arithmetic
(spec §1 puts it out of scope). -/
def calc_previous_and_next_pages (page_number page_size count : Nat) :
    Option Nat × Option Nat :=
  (if 1 < page_number then some (page_number - 1) else none,
   if page_number * page_size < count then some (page_number + 1) else none)

/-- `src/api/v1/users.py` lines 311-327 (`get_history`): reads the
paginated login history for a user id.  The handler takes no bearer
token, performs no `jwt_required` call and no permission check — it
cannot reject an unauthenticated request. -/
def get_history (st : AuthState) (uid : String) (page_size page_number : Nat) :
    Except ApiErr HistoryPage × AuthState :=
  let history := get_login_history st uid page_size page_number
  let count := get_login_history_count st uid
  let pages := calc_previous_and_next_pages page_number page_size count
  (.ok ⟨pages.1, pages.2, history⟩, st)

/-- Read-only directories the permission evaluator consults (spec §6):
subject → group ids (`none` = unknown subject), group id → permission
names. -/
structure AuthzDirectory where
  groups_of : String → Option (List String)
  permissions_of : String → List String

/-- Modelled from the spec: flattening a subject's groups to the set of
granted permission names (§4.4). -/
def flatten_permissions (d : AuthzDirectory) (groups : List String) : List String :=
  (groups.map d.permissions_of).flatten

/-- Modelled from the spec: `PermissionClaimsService.required_permissions`
(`services/authorization.py` is absent) — resolve the subject's groups,
flatten to permission names, and require EVERY requested name to be a
member; an unknown subject yields `false`, never an error (§4.4). -/
def required_permissions (d : AuthzDirectory) (subject : String)
    (names : List String) : Bool :=
  match d.groups_of subject with
  | none => false
  | some gs => names.all (fun n => (flatten_permissions d gs).contains n)

/-- A stored permission record (spec §3 Permission). -/
structure Permission where
  id : Nat
  permission_name : String
  description : String
deriving DecidableEq, Repr

/-- The permission table with a fresh-id counter. -/
structure PermissionDb where
  perms : List Permission
  nextId : Nat
deriving DecidableEq, Repr

/-- Modelled from the spec: `PermissionService.check_permission_exists`
(`services/permissions.py` is absent) — name-uniqueness probe (§3). -/
def check_permission_exists (db : PermissionDb) (name : String) : Bool :=
  db.perms.any (fun p => p.permission_name == name)

/-- Modelled from the spec: `PermissionService.add_permission` — insert a
new record under a fresh id. -/
def add_permission (db : PermissionDb) (name description : String) :
    Permission × PermissionDb :=
  (⟨db.nextId, name, description⟩,
   ⟨⟨db.nextId, name, description⟩ :: db.perms, db.nextId + 1⟩)

/-- `src/api/v1/permissions.py` lines 38-60 (`create_permission`):
`jwt_required` on the bearer token, then
`required_permissions(subject, [create_permission])` (403 on failure),
then the name-uniqueness check (409), then the insert.  The handler never
consults the denylist or any `AuthState`. -/
def create_permission (d : AuthzDirectory) (now : Nat) (tok : Option Token)
    (name description : String) (db : PermissionDb) :
    Except ApiErr Permission × PermissionDb :=
  match jwt_required now tok with
  | .error e => (.error e, db)
  | .ok t =>
      if !(required_permissions d t.subject ["create_permission"]) then
        (.error .forbidden, db)
      else if check_permission_exists db name then
        (.error .conflictError, db)
      else
        let r := add_permission db name description
        (.ok r.1, r.2)

/-! Concrete scenario material: a single registered user and logins at
time 0 from distinct devices, used to evaluate the operations on the
closed inputs the spec's own scenarios describe. -/

/-- One registered user, as the spec's scenario user U. -/
def usersDb : List User := [⟨"u1", "alice", "pw"⟩]

/-- The empty initial state: no sessions, empty denylist, no history. -/
def st0 : AuthState := ⟨[], [], [], 0⟩

/-- One sign-in for the scenario user at time 0 from the given device,
keeping only the state. -/
def loginStep (dev : String) (st : AuthState) : AuthState :=
  (login defaultJWTSettings usersDb 0 "alice" "pw" (some dev) st).2

/-- The state after signing the scenario user in from each listed device
in order. -/
def stAfter (devs : List String) : AuthState :=
  devs.foldl (fun st d => loginStep d st) st0

/-- The state after six sign-ins from six distinct devices D1..D6. -/
def st6 : AuthState := stAfter ["D1", "D2", "D3", "D4", "D5", "D6"]

/-- The state after a seventh sign-in from a seventh device D7. -/
def st7 : AuthState := loginStep "D7" st6

/-- The refresh token minted by the third sign-in (device D3): jti 5 —
sign-ins one to three mint jtis 0..5, refresh tokens odd — with the
default ten-day lifetime from time 0. -/
def refTok3 : Token := ⟨5, "alice", "u1", .refresh, 864000⟩

/-- The state after one sign-in from device D1 only. -/
def stD1 : AuthState := stAfter ["D1"]

/-- The refresh token minted by the first sign-in (device D1): jti 1,
default ten-day lifetime from time 0. -/
def refTok1 : Token := ⟨1, "alice", "u1", .refresh, 864000⟩

/-- The access token minted by the first sign-in (device D1): jti 0,
default ten-minute lifetime from time 0. -/
def accTok1 : Token := ⟨0, "alice", "u1", .access, 600⟩

/-- The state after rotating device D1's pair once via `refresh`. -/
def stRot : AuthState :=
  (refresh defaultJWTSettings 0 (some refTok1) (some "D1") stD1).2

/-- A directory granting the scenario user's group G1 the
`create_permission` permission. -/
def adminAuthz : AuthzDirectory :=
  ⟨fun s => if s == "alice" then some ["G1"] else none,
   fun g => if g == "G1" then ["create_permission"] else []⟩

/-- An empty permission table. -/
def pdb0 : PermissionDb := ⟨[], 0⟩

/-- A state in which the first access token (jti 0) is denylisted, as it
is right after that token's `sign_out`. -/
def stDeny : AuthState := ⟨[], [⟨0, 600⟩], [⟨"u1", "D1", .loginEvent⟩], 1⟩

/-- A directory for the spec's permission-check example: subject `s` is
in group G1 and G1 grants exactly the names `a` and `b`. -/
def exampleAuthz : AuthzDirectory :=
  ⟨fun s => if s == "s" then some ["G1"] else none,
   fun g => if g == "G1" then ["a", "b"] else []⟩

/-- A predicate false on every element of a list stays false on any
filtered sublist. -/
theorem any_filter_false {α : Type} (p q : α → Bool) (l : List α)
    (h : l.any p = false) : (l.filter q).any p = false := by
  induction l with
  | nil => rfl
  | cons a t ih =>
      simp only [List.any_cons, Bool.or_eq_false_iff] at h
      obtain ⟨h1, h2⟩ := h
      cases hq : q a with
      | false => simpa [List.filter_cons, hq] using ih h2
      | true => simp [List.filter_cons, hq, List.any_cons, h1, ih h2]

/-- `jwt_required` can only answer with the very token it was shown. -/
theorem jwt_required_some_ok (now : Nat) (t t2 : Token)
    (h : jwt_required now (some t) = .ok t2) : t2 = t := by
  unfold jwt_required at h
  cases hc : (t.typ == TokenType.access && decide (now < t.exp)) with
  | true => simp [hc] at h; exact h.symm
  | false => simp [hc] at h

/-- Inversion of `logout`: either some guard fails and the call returns
an error with the state untouched, or the token is a valid, not-yet
denylisted access token and the call denylists it, records logout and
deletes the (user, device) session. -/
theorem logout_cases (now : Nat) (tok : Option Token) (ua : Option String)
    (st : AuthState) :
    (∃ e, logout now tok ua st = (.error e, st)) ∨
    (∃ t dev, tok = some t ∧ ua = some dev ∧
      jwt_required now tok = .ok t ∧
      check_if_token_is_valid st t = true ∧
      logout now tok ua st =
        (.ok (),
          del_refresh_session_in_db
            (put_logout_history_in_db (put_token_in_denylist st t now)
              t.user_id dev)
            t.user_id dev)) := by
  cases ua with
  | none => exact .inl ⟨.missingDevice, rfl⟩
  | some dev =>
      cases hjwt : jwt_required now tok with
      | error e =>
          refine .inl ⟨e, ?_⟩
          simp [logout, hjwt]
      | ok t =>
          cases tok with
          | none => simp [jwt_required] at hjwt
          | some t2 =>
              have ht2 : t = t2 := (jwt_required_some_ok now t2 t hjwt)
              subst ht2
              cases hval : check_if_token_is_valid st t with
              | false =>
                  refine .inl ⟨.alreadyRevoked, ?_⟩
                  simp [logout, hjwt, hval]
              | true =>
                  right
                  refine ⟨t, dev, rfl, rfl, rfl, hval, ?_⟩
                  simp [logout, hjwt, hval]

/-- Inversion of `login`: either some guard fails and the call returns an
error with the state untouched, or all guards pass and the call returns
the freshly minted pair and the purge/insert/history composite state. -/
theorem login_cases (cfg : JWTSettings) (users : List User) (now : Nat)
    (username password : String) (ua : Option String) (st : AuthState) :
    (∃ e, login cfg users now username password ua st = (.error e, st)) ∨
    (∃ user ua2, ua = some ua2 ∧
      get_user_by_username users username = some user ∧
      check_password user password = true ∧
      check_if_user_login st user.id ua2 = false ∧
      login cfg users now username password ua st =
        (.ok ⟨⟨st.nextJti, user.username, user.id, .access,
                now + cfg.authjwt_access_token_expires⟩,
              ⟨st.nextJti + 1, user.username, user.id, .refresh,
                now + cfg.authjwt_refresh_token_expires⟩⟩,
          put_login_history_in_db
            (put_refresh_session_in_db
              (if MAX_SESSION_NUMBER < count_refresh_sessions st user.id then
                del_all_refresh_sessions_in_db
                  { st with nextJti := st.nextJti + 1 + 1 } user.id
              else { st with nextJti := st.nextJti + 1 + 1 })
              user.id ua2 (st.nextJti + 1))
            user.id ua2)) := by
  cases ua with
  | none => exact .inl ⟨.missingDevice, rfl⟩
  | some ua2 =>
      cases hu : get_user_by_username users username with
      | none =>
          refine .inl ⟨.invalidCredentials, ?_⟩
          simp [login, hu]
      | some user =>
          cases hpw : check_password user password with
          | false =>
              refine .inl ⟨.invalidCredentials, ?_⟩
              simp [login, hu, hpw]
          | true =>
              cases hdup : check_if_user_login st user.id ua2 with
              | true =>
                  refine .inl ⟨.duplicateSession, ?_⟩
                  simp [login, hu, hpw, hdup]
              | false =>
                  right
                  refine ⟨user, ua2, rfl, rfl, hpw, hdup, ?_⟩
                  simp [login, hu, hpw, hdup, create_access_token,
                        create_refresh_token, count_refresh_sessions]

/-- C1, counterexample: six sign-ins from the six distinct devices D1..D6
all succeed and leave SIX active sessions, not one — the purge condition
`session_number > MAX_SESSION_NUMBER` is evaluated on the count BEFORE
the new session is inserted, so the sixth sign-in sees five sessions and
does not purge; a refresh presenting the third device's refresh token
then still succeeds. -/
theorem six_logins_leave_six_sessions :
    (login defaultJWTSettings usersDb 0 "alice" "pw" (some "D6")
        (stAfter ["D1", "D2", "D3", "D4", "D5"])).1.isOk = true ∧
    count_refresh_sessions st6 "u1" = 6 ∧
    (refresh defaultJWTSettings 0 (some refTok3) (some "D3") st6).1.isOk = true := by
  decide

/-- C1, amended: the purge fires when the PRE-insertion session count
strictly exceeds the maximum, i.e. on the seventh sign-in under the
default maximum of five: the seventh login purges all six prior sessions
and leaves only the seventh active, and a refresh presenting the third
device's refresh token then fails with SessionNotFound. -/
theorem seventh_login_purges_all_sessions :
    (login defaultJWTSettings usersDb 0 "alice" "pw" (some "D7") st6).1.isOk = true ∧
    count_refresh_sessions st7 "u1" = 1 ∧
    st7.sessions = [⟨"u1", "D7", 13⟩] ∧
    errOf (refresh defaultJWTSettings 0 (some refTok3) (some "D3") st7).1 =
      some .sessionNotFound := by
  decide

/-- C2, counterexample: after device D1's pair is rotated once by a
successful `refresh`, replaying the ALREADY-CONSUMED refresh token on the
same device succeeds again — the handler only checks that some session
exists for (user id, device), and rotation re-created a session under
that very key, so the old refresh token is not single-use. -/
theorem rotated_refresh_token_replay_succeeds :
    (refresh defaultJWTSettings 0 (some refTok1) (some "D1") stD1).1.isOk = true ∧
    (refresh defaultJWTSettings 0 (some refTok1) (some "D1") stRot).1.isOk = true := by
  decide

/-- C2, amended: a refresh token consumed by `sign_out` does fail with
SessionNotFound, because sign-out deletes the (user, device) session and
nothing re-creates it; but a refresh token consumed by a prior successful
same-device `refresh` remains usable, since the session-existence check
keys only on (user id, device) and rotation stores the new session under
the same key. -/
theorem refresh_consumed_by_signout_fails :
    (logout 0 (some accTok1) (some "D1") stD1).1.isOk = true ∧
    errOf (refresh defaultJWTSettings 0 (some refTok1) (some "D1")
        (logout 0 (some accTok1) (some "D1") stD1).2).1 = some .sessionNotFound := by
  decide

/-- C3, counterexample: `create_permission` accepts a structurally valid
access token that IS denylisted — the permission handlers never consult
the denylist (only `logout` does, and the JWT configuration does not
enable the library's denylist integration) — and `get_history` takes no
bearer token at all and answers any request. -/
theorem denylisted_token_accepted_by_privileged_ops :
    check_if_token_is_valid stDeny accTok1 = false ∧
    (create_permission adminAuthz 0 (some accTok1) "x" "d" pdb0).1.isOk = true ∧
    (get_history stDeny "u1" 2 1).1.isOk = true := by
  decide

/-- C10: whenever `login` is rejected — missing device identity, unknown
username or wrong password, or an already-active session on the same
device — the error is returned with the whole state unchanged: the
session store, denylist and history are untouched and the issuer's
counter shows no token was minted. -/
theorem failed_login_leaves_state_unchanged
    (cfg : JWTSettings) (users : List User) (now : Nat)
    (username password : String) (ua : Option String) (st : AuthState) (e : ApiErr)
    (h : (login cfg users now username password ua st).1 = .error e) :
    (login cfg users now username password ua st).2 = st := by
  rcases login_cases cfg users now username password ua st with ⟨e2, heq⟩ |
    ⟨user, ua2, hua, hu, hpw, hdup, heq⟩
  · rw [heq]
  · rw [heq] at h
    simp at h

/-- C10 witness: a wrong password at the empty state is rejected with the
state intact. -/
theorem failed_login_leaves_state_unchanged_witness :
    (login defaultJWTSettings usersDb 0 "alice" "bad" (some "D1") st0).1 =
      .error .invalidCredentials ∧
    (login defaultJWTSettings usersDb 0 "alice" "bad" (some "D1") st0).2 = st0 :=
  ⟨rfl,
   failed_login_leaves_state_unchanged defaultJWTSettings usersDb 0 "alice" "bad"
     (some "D1") st0 .invalidCredentials rfl⟩

/-- C9: under the default configuration the access token lives ten
minutes and the refresh token ten days (both fields of `JWTSettings`,
hence configurable), and a successful `login` mints both tokens for the
authenticated user with subject = username, the `user_id` claim, and
expiry `now` plus the configured lifetime. -/
theorem login_token_lifetimes_and_claims
    (cfg : JWTSettings) (users : List User) (now : Nat)
    (username password dev : String) (pair : TokenPair) (st st2 : AuthState)
    (h : login cfg users now username password (some dev) st = (.ok pair, st2)) :
    defaultJWTSettings.authjwt_access_token_expires = 10 * 60 ∧
    defaultJWTSettings.authjwt_refresh_token_expires = 10 * 24 * 60 * 60 ∧
    ∃ user, get_user_by_username users username = some user ∧
      pair.access_token.subject = user.username ∧
      pair.access_token.user_id = user.id ∧
      pair.access_token.typ = .access ∧
      pair.access_token.exp = now + cfg.authjwt_access_token_expires ∧
      pair.refresh_token.subject = user.username ∧
      pair.refresh_token.user_id = user.id ∧
      pair.refresh_token.typ = .refresh ∧
      pair.refresh_token.exp = now + cfg.authjwt_refresh_token_expires := by
  refine ⟨rfl, rfl, ?_⟩
  rcases login_cases cfg users now username password (some dev) st with ⟨e, heq⟩ |
    ⟨user, ua2, hua, hu, hpw, hdup, heq⟩
  · rw [heq] at h
    simp at h
  · rw [heq] at h
    simp only [Prod.mk.injEq, Except.ok.injEq] at h
    obtain ⟨hp, hs⟩ := h
    subst hp
    exact ⟨user, hu, rfl, rfl, rfl, rfl, rfl, rfl, rfl, rfl⟩

/-- C9 witness: the first sign-in at time 0 mints exactly the pair
`accTok1`/`refTok1` with the scenario user's claims. -/
theorem login_token_lifetimes_and_claims_witness :
    defaultJWTSettings.authjwt_access_token_expires = 10 * 60 ∧
    defaultJWTSettings.authjwt_refresh_token_expires = 10 * 24 * 60 * 60 ∧
    ∃ user, get_user_by_username usersDb "alice" = some user ∧
      (TokenPair.mk accTok1 refTok1).access_token.subject = user.username ∧
      (TokenPair.mk accTok1 refTok1).access_token.user_id = user.id ∧
      (TokenPair.mk accTok1 refTok1).access_token.typ = .access ∧
      (TokenPair.mk accTok1 refTok1).access_token.exp =
        0 + defaultJWTSettings.authjwt_access_token_expires ∧
      (TokenPair.mk accTok1 refTok1).refresh_token.subject = user.username ∧
      (TokenPair.mk accTok1 refTok1).refresh_token.user_id = user.id ∧
      (TokenPair.mk accTok1 refTok1).refresh_token.typ = .refresh ∧
      (TokenPair.mk accTok1 refTok1).refresh_token.exp =
        0 + defaultJWTSettings.authjwt_refresh_token_expires :=
  login_token_lifetimes_and_claims defaultJWTSettings usersDb 0 "alice" "pw" "D1"
    ⟨accTok1, refTok1⟩ st0 stD1 rfl

/-- C4: after a successful sign-in from one device, an immediate second
sign-in with the same credentials and the same device fails with the
duplicate-session conflict and does not replace the session, while a
sign-in from a different, not-yet-signed-in device succeeds. -/
theorem signin_duplicate_device_conflicts
    (cfg : JWTSettings) (users : List User) (now now2 : Nat)
    (username password dev dev2 : String) (pair : TokenPair) (st st2 : AuthState)
    (h : login cfg users now username password (some dev) st = (.ok pair, st2))
    (hne : dev2 ≠ dev)
    (hfresh : ∀ u, get_user_by_username users username = some u →
        check_if_user_login st u.id dev2 = false) :
    (login cfg users now2 username password (some dev) st2).1 =
      .error .duplicateSession ∧
    (login cfg users now2 username password (some dev2) st2).1.isOk = true := by
  rcases login_cases cfg users now username password (some dev) st with ⟨e, heq⟩ |
    ⟨user, ua2, hua, hu, hpw, hdup, heq⟩
  · rw [heq] at h
    simp at h
  · injection hua with hua
    subst hua
    rw [heq] at h
    simp only [Prod.mk.injEq, Except.ok.injEq] at h
    obtain ⟨hp, hs⟩ := h
    subst hs
    have hbne : (dev == dev2) = false := beq_eq_false_iff_ne.mpr (Ne.symm hne)
    have hbase : st.sessions.any (sessionKeyMatches user.id dev2) = false :=
      hfresh user hu
    have hfiltered :
        (((if MAX_SESSION_NUMBER < count_refresh_sessions st user.id then
            del_all_refresh_sessions_in_db
              { st with nextJti := st.nextJti + 1 + 1 } user.id
          else
            { st with nextJti := st.nextJti + 1 + 1 }).sessions.filter
          (fun r => !(sessionKeyMatches user.id dev r))).any
            (sessionKeyMatches user.id dev2)) = false := by
      by_cases hc : MAX_SESSION_NUMBER < count_refresh_sessions st user.id
      · simp only [if_pos hc, del_all_refresh_sessions_in_db]
        exact any_filter_false _ _ _ (any_filter_false _ _ _ hbase)
      · simp only [if_neg hc]
        exact any_filter_false _ _ _ hbase
    constructor
    · have hdup2 : check_if_user_login
          (put_login_history_in_db
            (put_refresh_session_in_db
              (if MAX_SESSION_NUMBER < count_refresh_sessions st user.id then
                del_all_refresh_sessions_in_db
                  { st with nextJti := st.nextJti + 1 + 1 } user.id
              else { st with nextJti := st.nextJti + 1 + 1 })
              user.id dev (st.nextJti + 1))
            user.id dev) user.id dev = true := by
        simp [check_if_user_login, put_login_history_in_db,
              put_refresh_session_in_db, sessionKeyMatches]
      simp [login, hu, hpw, hdup2]
    · have hfree : check_if_user_login
          (put_login_history_in_db
            (put_refresh_session_in_db
              (if MAX_SESSION_NUMBER < count_refresh_sessions st user.id then
                del_all_refresh_sessions_in_db
                  { st with nextJti := st.nextJti + 1 + 1 } user.id
              else { st with nextJti := st.nextJti + 1 + 1 })
              user.id dev (st.nextJti + 1))
            user.id dev) user.id dev2 = false := by
        simp only [check_if_user_login, put_login_history_in_db,
                   put_refresh_session_in_db, List.any_cons, sessionKeyMatches,
                   Bool.or_eq_false_iff]
        exact ⟨by simp [hbne], hfiltered⟩
      simp [login, hu, hpw, hfree, Except.isOk, Except.toBool]

/-- C4 witness: from the empty state, sign-in on D1 succeeds; repeating
it on D1 conflicts while D2 succeeds. -/
theorem signin_duplicate_device_conflicts_witness :
    (login defaultJWTSettings usersDb 0 "alice" "pw" (some "D1") stD1).1 =
      .error .duplicateSession ∧
    (login defaultJWTSettings usersDb 0 "alice" "pw" (some "D2") stD1).1.isOk
      = true :=
  signin_duplicate_device_conflicts defaultJWTSettings usersDb 0 0 "alice" "pw"
    "D1" "D2" ⟨accTok1, refTok1⟩ st0 stD1 rfl (by decide) (fun _ _ => rfl)

/-- C3, amended: the auth gate the permission handlers DO implement —
`create_permission` rejects a request without a structurally valid,
unexpired access token with an authentication failure, and rejects a
subject failing `required_permissions` with 403; the gate never consults
the denylist, and `get_history` has no gate at all. -/
theorem create_permission_auth_gate
    (d : AuthzDirectory) (now : Nat) (t : Token) (name description : String)
    (db : PermissionDb)
    (hok : jwt_required now (some t) = .ok t)
    (hperm : required_permissions d t.subject ["create_permission"] = false) :
    (create_permission d now (some t) name description db).1 = .error .forbidden ∧
    ∀ db2 : PermissionDb,
      (create_permission d now none name description db2).1 =
        .error .authenticationFailure := by
  refine ⟨?_, fun db2 => rfl⟩
  simp [create_permission, hok, hperm]

/-- C3 amended, witness: a valid token whose subject is unknown to the
directory is rejected with 403, and a token-less request with 401. -/
theorem create_permission_auth_gate_witness :
    (create_permission ⟨fun _ => none, fun _ => []⟩ 0 (some accTok1) "x" "d"
        pdb0).1 = .error .forbidden ∧
    ∀ db2 : PermissionDb,
      (create_permission ⟨fun _ => none, fun _ => []⟩ 0 none "x" "d" db2).1 =
        .error .authenticationFailure :=
  create_permission_auth_gate ⟨fun _ => none, fun _ => []⟩ 0 accTok1 "x" "d"
    pdb0 rfl rfl

/-- C5: for a present device identity and a valid, not-yet-revoked access
token, `sign_out` pushes the token's identifier onto the denylist with
TTL = its remaining lifetime, deletes the (user id, device) session,
records a logout history event, and a second `sign_out` with the same
(now-denylisted) token fails at the revocation check instead of
succeeding idempotently. -/
theorem logout_denylists_and_deletes_session
    (now : Nat) (t : Token) (dev : String) (st st2 : AuthState) (r : Unit)
    (h : logout now (some t) (some dev) st = (.ok r, st2)) :
    st2.denylist = ⟨t.jti, t.exp - now⟩ :: st.denylist ∧
    st2.sessions = st.sessions.filter (fun s => !(sessionKeyMatches t.user_id dev s)) ∧
    st2.history = ⟨t.user_id, dev, .logoutEvent⟩ :: st.history ∧
    (logout now (some t) (some dev) st2).1 = .error .alreadyRevoked := by
  rcases logout_cases now (some t) (some dev) st with ⟨e, heq⟩ |
    ⟨t2, dev2, htok, hua, hjwt, hval, heq⟩
  · rw [heq] at h
    simp at h
  · injection htok with htok
    subst htok
    injection hua with hua
    subst hua
    rw [heq] at h
    simp only [Prod.mk.injEq] at h
    obtain ⟨-, hs⟩ := h
    subst hs
    refine ⟨rfl, rfl, rfl, ?_⟩
    simp [logout, hjwt, check_if_token_is_valid, put_token_in_denylist,
          put_logout_history_in_db, del_refresh_session_in_db]

/-- C5 witness: signing out device D1's access token from the
one-session state produces exactly the denylisted/deleted/recorded state,
and a second sign-out with it is rejected as already revoked. -/
theorem logout_denylists_and_deletes_session_witness :
    (logout 0 (some accTok1) (some "D1") stD1).2.denylist =
      ⟨accTok1.jti, accTok1.exp - 0⟩ :: stD1.denylist ∧
    (logout 0 (some accTok1) (some "D1") stD1).2.sessions =
      stD1.sessions.filter (fun s => !(sessionKeyMatches accTok1.user_id "D1" s)) ∧
    (logout 0 (some accTok1) (some "D1") stD1).2.history =
      ⟨accTok1.user_id, "D1", .logoutEvent⟩ :: stD1.history ∧
    (logout 0 (some accTok1) (some "D1")
        (logout 0 (some accTok1) (some "D1") stD1).2).1 =
      .error .alreadyRevoked :=
  logout_denylists_and_deletes_session 0 accTok1 "D1" stD1
    (logout 0 (some accTok1) (some "D1") stD1).2 () rfl

/-- Inversion of `change_password`: either the update is rejected with
the state untouched, or the flow returns the updated user table and the
state with all of the affected user's sessions deleted. -/
theorem change_password_cases (users : List User) (username old new2 : String)
    (st : AuthState) :
    (change_password users username old new2 st).1 =
        .error .invalidCredentials ∧
      (change_password users username old new2 st).2 = st ∨
    ∃ us2 u, update_password users username old new2 = some us2 ∧
      get_user_by_username us2 username = some u ∧
      change_password users username old new2 st =
        (.ok us2, del_all_refresh_sessions_in_db st u.id) := by
  cases hup : update_password users username old new2 with
  | none =>
      left
      constructor <;> simp [change_password, hup]
  | some us2 =>
      cases hg : get_user_by_username us2 username with
      | none =>
          left
          constructor <;> simp [change_password, hup, hg]
      | some u =>
          right
          refine ⟨us2, u, rfl, hg, ?_⟩
          simp [change_password, hup, hg]

/-- C7: a successful `change_password` deletes every refresh session of
the affected user while leaving the denylist and the history untouched,
so any currently valid access token stays exactly as revocable/usable as
before (it is not denylisted by the flow). -/
theorem change_password_deletes_sessions_keeps_denylist
    (users users2 : List User) (username old new2 : String) (st : AuthState)
    (v : User)
    (hok : (change_password users username old new2 st).1 = .ok users2)
    (hv : get_user_by_username users2 username = some v) :
    (change_password users username old new2 st).2.sessions =
      st.sessions.filter (fun r => !(r.user_id == v.id)) ∧
    (change_password users username old new2 st).2.denylist = st.denylist ∧
    (change_password users username old new2 st).2.history = st.history ∧
    ∀ t, check_if_token_is_valid (change_password users username old new2 st).2 t =
      check_if_token_is_valid st t := by
  rcases change_password_cases users username old new2 st with ⟨he, -⟩ |
    ⟨us2, u, hup, hg, heq⟩
  · rw [hok] at he
    exact absurd he (by simp)
  · rw [heq] at hok
    simp only [Except.ok.injEq] at hok
    subst hok
    rw [hg] at hv
    injection hv with hv
    subst hv
    rw [heq]
    exact ⟨rfl, rfl, rfl, fun t => rfl⟩

/-- C7 witness: changing the scenario user's password from the six-device
state empties that user's sessions and leaves the denylist as it was. -/
theorem change_password_deletes_sessions_keeps_denylist_witness :
    (change_password usersDb "alice" "pw" "better" st6).2.sessions =
      st6.sessions.filter (fun r => !(r.user_id == "u1")) ∧
    (change_password usersDb "alice" "pw" "better" st6).2.denylist =
      st6.denylist ∧
    (change_password usersDb "alice" "pw" "better" st6).2.history =
      st6.history ∧
    ∀ t, check_if_token_is_valid
        (change_password usersDb "alice" "pw" "better" st6).2 t =
      check_if_token_is_valid st6 t :=
  change_password_deletes_sessions_keeps_denylist usersDb
    [⟨"u1", "alice", "better"⟩] "alice" "pw" "better" st6
    ⟨"u1", "alice", "better"⟩ rfl rfl

/-- C6: `required_permissions` answers true exactly when the subject
resolves and EVERY requested name is in the flattened permission set of
its groups; an unknown subject always yields false (never an error); on
the spec's example directory, `[a]` is granted and `[a, c]` is not. -/
theorem required_permissions_iff_all_granted :
    (∀ (d : AuthzDirectory) (subject : String) (names : List String),
      required_permissions d subject names = true ↔
        ∃ gs, d.groups_of subject = some gs ∧
          ∀ n ∈ names, n ∈ flatten_permissions d gs) ∧
    required_permissions exampleAuthz "s" ["a"] = true ∧
    required_permissions exampleAuthz "s" ["a", "c"] = false ∧
    (∀ names, required_permissions exampleAuthz "unknown-subject" names = false) := by
  refine ⟨?_, by decide, by decide, fun names => rfl⟩
  intro d subject names
  unfold required_permissions
  cases hg : d.groups_of subject with
  | none => simp
  | some gs =>
      simp only [List.all_eq_true, List.elem_iff]
      constructor
      · intro hall
        exact ⟨gs, rfl, hall⟩
      · rintro ⟨gs2, hgs, hall⟩
        injection hgs with hgs
        subst hgs
        exact hall

/-- C8, counterexample: a sign-in with an absent device identity fails
with the missing-device client error (HTTP 400), NOT with the same
outcome as rejected credentials (HTTP 401) — the two rejections are
distinct errors with distinct statuses. -/
theorem missing_device_differs_from_invalid_credentials :
    errOf (login defaultJWTSettings usersDb 0 "alice" "pw" none st0).1 =
      some .missingDevice ∧
    errOf (login defaultJWTSettings usersDb 0 "alice" "wrong" (some "D1") st0).1 =
      some .invalidCredentials ∧
    ApiErr.missingDevice ≠ ApiErr.invalidCredentials ∧
    ApiErr.status .missingDevice ≠ ApiErr.status .invalidCredentials := by
  decide

/-- C8, amended: for `sign_in`, `sign_out` and `refresh` alike, an absent
device identity is rejected up front with the missing-device client error
(status 400), which is distinct from the authentication failure (status
401) that rejected credentials produce. -/
theorem missing_device_is_distinct_client_error
    (cfg : JWTSettings) (users : List User) (now : Nat)
    (username password : String) (tok : Option Token) (st : AuthState) :
    (login cfg users now username password none st).1 = .error .missingDevice ∧
    (logout now tok none st).1 = .error .missingDevice ∧
    (refresh cfg now tok none st).1 = .error .missingDevice ∧
    ApiErr.status .missingDevice = 400 ∧
    ApiErr.status .invalidCredentials = 401 :=
  ⟨rfl, rfl, rfl, rfl, rfl⟩

end AuthService
